import Mathlib

/-!
Verification of the intake-to-classification pipeline of the 911 repository.

The Python sources are shallowly embedded: byte strings become `List Nat`,
Python `str` values that we must reason about character-by-character become
`List Char`, floats that the code only ever compares and copies become `ℚ`,
JSON values produced by `json.loads` become the inductive `JsonValue`, and
every external oracle (block cipher, HKDF, the language-model completions,
the FAISS similarity search) becomes an explicit function or outcome
parameter, so that each embedded function is a total, executable Lean
definition mirroring the control flow of its source function.
-/

/- ===== MediaResolver: decryption and unpadding (src/api/server.py, decrypt_enc) ===== -/

/-- Unpadding step of `decrypt_enc` (src/api/server.py lines 232-241): the last
byte is read as the pad length `pad`; the buffer is rejected when it is empty or
when `pad` exceeds its length; otherwise the Python slice `decrypted[:-pad]` is
returned, which is the whole-buffer drop (empty result) when `pad = 0` and the
drop of the last `pad` bytes otherwise.  No `pad = 0` check and no
block-size (16) upper bound are performed by the source. -/
def unpad (decrypted : List Nat) : Option (List Nat) :=
  if decrypted.length = 0 then none
  else if decrypted.getLast! > decrypted.length then none
  else if decrypted.getLast! = 0 then some []
  else some (decrypted.take (decrypted.length - decrypted.getLast!))

/-- Outcome of `decrypt_enc`.  The source returns `None` on every failure and
logs a distinct message per branch; the constructors record which logged branch
was taken.  `errKeyDecode` is the base64 decode of the media key raising,
`errCipher` is the AES layer itself raising (wrong key/IV size or a payload that
is not a multiple of the block size). -/
inductive DecryptResult where
  | ok (plaintext : List Nat)
  | errKeyDecode
  | errPayloadTooSmall
  | errEmptyDecrypted
  | errInvalidPadding
  | errCipher
  deriving DecidableEq, Repr

/-- The `bytes`-or-`None` value `decrypt_enc` actually hands to its caller. -/
def DecryptResult.toOption : DecryptResult → Option (List Nat)
  | .ok p => some p
  | _ => none

/-- Embedding of `decrypt_enc` (src/api/server.py lines 193-248).
`mediaKey` is the result of `base64.b64decode` (`none` when it raises), `hkdf`
is the HKDF-SHA256 expansion oracle (the source requests 112 bytes), and
`aesDecrypt key iv payload` is the AES-256-CBC decryption oracle.  The second
component of the result records whether the block cipher was invoked on the
stripped payload.  The MAC-strip length check (`len(enc_bytes) <= 10`) happens
before the cipher object is ever constructed, exactly as in the source. -/
def decrypt_enc (mediaKey : Option (List Nat)) (hkdf : List Nat → List Nat)
    (aesDecrypt : List Nat → List Nat → List Nat → List Nat)
    (enc_bytes : List Nat) : DecryptResult × Bool :=
  match mediaKey with
  | none => (.errKeyDecode, false)
  | some mk =>
    let full_key := hkdf mk
    let iv := full_key.take 16
    let enc_key := (full_key.drop 16).take 32
    if enc_bytes.length ≤ 10 then (.errPayloadTooSmall, false)
    else
      let payload := enc_bytes.take (enc_bytes.length - 10)
      if ¬(enc_key.length = 16 ∨ enc_key.length = 24 ∨ enc_key.length = 32)
          ∨ iv.length ≠ 16 then (.errCipher, false)
      else if payload.length % 16 ≠ 0 then (.errCipher, true)
      else
        let decrypted := aesDecrypt enc_key iv payload
        if decrypted.length = 0 then (.errEmptyDecrypted, true)
        else
          match unpad decrypted with
          | none => (.errInvalidPadding, true)
          | some r => (.ok r, true)

/- ===== MediaResolver: format sniffing (src/api/server.py, transcribe_audio_from_url) ===== -/

/-- Magic header bytes of `b"OggS"`. -/
def bytesOggS : List Nat := [79, 103, 103, 83]

/-- Magic header bytes of `b"ID3"`. -/
def bytesID3 : List Nat := [73, 68, 51]

/-- Magic header bytes of `b"RIFF"`. -/
def bytesRIFF : List Nat := [82, 73, 70, 70]

/-- Magic header bytes of `b"ftyp"`. -/
def bytesFtyp : List Nat := [102, 116, 121, 112]

/-- The extension chosen by the sniffing chain of `transcribe_audio_from_url`
(src/api/server.py lines 270-289).  The source tests `decrypted.startswith` for
OggS but tests the 20-byte slice `audio_headers` for the remaining magic
numbers; both are modelled verbatim. -/
def chooseExtension (decrypted : List Nat) : String :=
  let audio_headers := decrypted.take 20
  if bytesOggS.isPrefixOf decrypted then "ogg"
  else if bytesID3.isPrefixOf audio_headers then "mp3"
  else if [255, 251].isPrefixOf audio_headers then "mp3"
  else if [255, 243].isPrefixOf audio_headers then "mp3"
  else if bytesRIFF.isPrefixOf audio_headers then "wav"
  else if bytesFtyp.isPrefixOf audio_headers then "m4a"
  else "ogg"

/-- The format-sniff rule exactly as the specification states it: classify the
decrypted bytes by magic header (OggS to ogg, ID3 or one of the MP3 frame-sync
byte pairs to mp3, RIFF to wav, ftyp to m4a) and default to ogg when none
match. -/
def specFormatHint (buf : List Nat) : String :=
  if bytesOggS.isPrefixOf buf then "ogg"
  else if bytesID3.isPrefixOf buf ∨ [255, 251].isPrefixOf buf ∨ [255, 243].isPrefixOf buf
    then "mp3"
  else if bytesRIFF.isPrefixOf buf then "wav"
  else if bytesFtyp.isPrefixOf buf then "m4a"
  else "ogg"

/-- What `transcribe_audio_from_url` does with a decrypted buffer
(src/api/server.py lines 266-299): too-small buffers (< 100 bytes) abort before
sniffing; every other buffer is handed to the transcription oracle together
with the sniffed extension, the unrecognized-header case included. -/
inductive TranscribeOutcome where
  | failSmall
  | send (extension : String)
  deriving DecidableEq, Repr

/-- Routing step of `transcribe_audio_from_url` after decryption succeeds. -/
def transcribeRouting (decrypted : List Nat) : TranscribeOutcome :=
  if decrypted.length < 100 then .failSmall
  else .send (chooseExtension decrypted)

/- ===== ClassificationCascade: JSON model and Stage B parser
   (src/agentes/urgency_classifier.py, EmergencyOutputParser) ===== -/

/-- Value produced by `json.loads`.  Numbers are rationals (the embedding of
Python int/float literals as compared and copied by this code). -/
inductive JsonValue where
  | null
  | bool (b : Bool)
  | num (q : ℚ)
  | str (s : String)
  | arr (elems : List JsonValue)
  | obj (fields : List (String × JsonValue))

/-- Python dict lookup on a decoded JSON object: `json.loads` keeps the last
binding of a duplicated key, so the association list is searched from the
right. -/
def pyDictGet (fields : List (String × JsonValue)) (k : String) : Option JsonValue :=
  (fields.reverse.find? (fun kv => kv.1 == k)).map Prod.snd

/-- Truncation toward zero, the rounding performed by Python `int()` on a
float. -/
def ratTruncToward0 (q : ℚ) : Int :=
  if q < 0 then -⌊-q⌋ else ⌊q⌋

/-- Python `int(x)` applied to a decoded JSON value (`none` when it raises).
Numeric strings, which `int` would also accept, are not produced by the
classification oracle contract and are not modelled. -/
def pyInt : JsonValue → Option Int
  | .num q => some (ratTruncToward0 q)
  | .bool b => some (if b then 1 else 0)
  | _ => none

/-- Python `float(x)` applied to a decoded JSON value (`none` when it raises).
Numeric strings are not modelled, as for `pyInt`. -/
def pyFloat : JsonValue → Option ℚ
  | .num q => some q
  | .bool b => some (if b then 1 else 0)
  | _ => none

/-- The wrapping `data["canal"] if isinstance(data["canal"], list) else
[data["canal"]]` performed by the Stage B parser (urgency_classifier.py
line 65): a JSON array passes through unchanged (its elements unvalidated), any
other value is wrapped into a one-element list. -/
def pyWrapList : JsonValue → List JsonValue
  | .arr xs => xs
  | v => [v]

/-- Python's `isinstance(x, list)` on a decoded JSON value. -/
def JsonValue.isArr : JsonValue → Bool
  | .arr _ => true
  | _ => false

/-- The raw oracle text as seen through the brace extraction of
`EmergencyOutputParser.parse` (urgency_classifier.py lines 48-56): either no
brace pair is found, or the extracted substring fails `json.loads`, or an
object is decoded (the extracted substring starts with the first `{` and ends
with the last `}`, so a successful decode is always an object). -/
inductive LLMResponse where
  | noJson
  | badJson
  | valid (fields : List (String × JsonValue))

/-- Stage B classification record, the `EmergencyClassification` dataclass of
urgency_classifier.py lines 26-32.  The dataclass performs no runtime
validation, so `canal` elements and `justificativa` keep whatever JSON values
the oracle supplied. -/
structure EmergencyClassification where
  canal : List JsonValue
  nivel_urgencia : Int
  justificativa : JsonValue
  confidence_score : ℚ

/-- Embedding of `EmergencyOutputParser.parse` (urgency_classifier.py lines
37-74): brace extraction, `json.loads`, the required-field check over `canal`,
`nivel_urgencia`, `justificativa` in order, then construction with
`int(data["nivel_urgencia"])` (unchecked range) and
`float(data.get("confidence_score", 0.8))`.  Every raising path collapses to
the `OutputParserException` the caller sees, modelled as `.error`. -/
def EmergencyOutputParser.parse (r : LLMResponse) : Except String EmergencyClassification :=
  match r with
  | .noJson => .error "JSON não encontrado na resposta"
  | .badJson => .error "Erro ao parsear JSON"
  | .valid data =>
    match pyDictGet data "canal" with
    | none => .error "Campo obrigatório canal não encontrado"
    | some c =>
      match pyDictGet data "nivel_urgencia" with
      | none => .error "Campo obrigatório nivel_urgencia não encontrado"
      | some n =>
        match pyDictGet data "justificativa" with
        | none => .error "Campo obrigatório justificativa não encontrado"
        | some j =>
          match pyInt n with
          | none => .error "Erro no parse"
          | some nivel =>
            match pyFloat ((pyDictGet data "confidence_score").getD (.num (4/5))) with
            | none => .error "Erro no parse"
            | some cs =>
              .ok { canal := pyWrapList c, nivel_urgencia := nivel,
                    justificativa := j, confidence_score := cs }

/- ===== ClassificationCascade: Stage B classifier
   (src/agentes/urgency_classifier.py, UrgencyClassifier) ===== -/

/-- Outcome of invoking an external oracle: the call raises, or returns a
value. -/
inductive OracleCall (α : Type) where
  | raises (msg : String)
  | returns (a : α)

/-- The fallback record built by `UrgencyClassifier.classify_emergency` when
anything in the stage raises (urgency_classifier.py lines 248-256). -/
def UrgencyClassifier.fallback (e : String) : EmergencyClassification :=
  { canal := [.str "saude"]
    nivel_urgencia := 4
    justificativa := .str ("Erro na classificação automática: " ++ e ++
      ". Direcionado para avaliação manual urgente.")
    confidence_score := 1/10 }

/-- Embedding of `UrgencyClassifier.classify_emergency` (urgency_classifier.py
lines 188-256).  The RAG context, the prior Stage A hint and the prompt text
only shape the oracle's input, which the model folds into the `OracleCall`
outcome; the returned record depends solely on whether the oracle call raises
and on how its text parses, exactly the source's `try`/`except` structure. -/
def UrgencyClassifier.classify_emergency (llm : OracleCall LLMResponse) : EmergencyClassification :=
  match llm with
  | .raises e => UrgencyClassifier.fallback e
  | .returns r =>
    match EmergencyOutputParser.parse r with
    | .ok c => c
    | .error e => UrgencyClassifier.fallback e

/-- Whether the Stage B oracle interaction fails: the call raises, or its
response fails to parse. -/
def classifyFails : OracleCall LLMResponse → Bool
  | .raises _ => true
  | .returns r =>
    match EmergencyOutputParser.parse r with
    | .ok _ => false
    | .error _ => true

/- ===== ClassificationCascade: Stage A classifier
   (src/agentes/emergency_classifier.py, EmergencyClassifierAgent) ===== -/

/-- The three-value Stage A vocabulary (`EmergencyType` enum of
emergency_classifier.py lines 13-17). -/
inductive EmergencyType where
  | samu
  | policia
  | bombeiro
  deriving DecidableEq, Repr

/-- The string value of each Stage A enum member. -/
def EmergencyType.value : EmergencyType → String
  | .samu => "samu"
  | .policia => "policia"
  | .bombeiro => "bombeiro"

/-- Outcome of the Stage A oracle call plus its Pydantic parse: either a
validated `EmergencyClassification` pydantic object (whose `tipos_emergencia`
list may be empty, Pydantic imposing no minimum length), or any raised
exception. -/
inductive StageAOutcome where
  | parsed (tipos : List EmergencyType) (justificativa : String) (confianca : ℚ)
  | failure (e : String)

/-- The dict returned by `EmergencyClassifierAgent.classify_emergency`
(emergency_classifier.py lines 160-176); `erro` is present only on the fallback
path. -/
structure EmergencyResult where
  tipos_emergencia : List String
  justificativa : String
  confianca : ℚ
  status : String
  erro : Option String

/-- Embedding of `EmergencyClassifierAgent.classify_emergency`
(emergency_classifier.py lines 139-176): on a successful parse the enum list is
mapped to its string values; on any exception the fixed `["samu"]` /
confidence-0 fallback dict is returned and nothing is raised. -/
def EmergencyClassifierAgent.classify_emergency : StageAOutcome → EmergencyResult
  | .parsed tipos j c =>
    { tipos_emergencia := tipos.map EmergencyType.value
      justificativa := j
      confianca := c
      status := "sucesso"
      erro := none }
  | .failure e =>
    { tipos_emergencia := ["samu"]
      justificativa := "Erro ao processar: " ++ e ++ ". Classificação padrão: SAMU por segurança."
      confianca := 0
      status := "erro"
      erro := some e }

/- ===== ResultFusion (src/api/server.py, classificar_emergencia and
   process_message_event) ===== -/

/-- The dict returned by `classificar_emergencia` (src/api/server.py lines
469-483). -/
structure ClassificationRecord where
  relato : String
  emergency_classification : List String
  nivel_urgencia : Int
  status : String
  timestamp : String

/-- Embedding of `classificar_emergencia` (src/api/server.py lines 469-483):
Stage A runs, Stage B runs, and the returned record copies Stage A's
`tipos_emergencia` into `emergency_classification`, Stage B's `nivel_urgencia`,
and the constant status `"sucesso"`.  `datetime.now()` is passed in as
`timestamp`. -/
def classificar_emergencia (stageA : StageAOutcome) (llmB : OracleCall LLMResponse)
    (relato timestamp : String) : ClassificationRecord :=
  let emergency_result := EmergencyClassifierAgent.classify_emergency stageA
  let urgency_result := UrgencyClassifier.classify_emergency llmB
  { relato := relato
    emergency_classification := emergency_result.tipos_emergencia
    nivel_urgencia := urgency_result.nivel_urgencia
    status := "sucesso"
    timestamp := timestamp }

/-- The payload `process_message_event` hands to the persistence collaborator
(src/api/server.py lines 390-400). -/
structure BackendData where
  success : Bool
  emergency_type : List String
  urgency_level : Int
  situation : String
  confidence_score : ℚ
  location : String
  victim : Option String
  reporter : String
  timestamp : String

/-- The `backend_data` record built by `process_message_event`
(src/api/server.py lines 371-400) for a message event that yielded text:
`confidence_score` is the literal `0.9` and the classification stages'
confidence values are never read. -/
def process_message_event_backendData (stageA : StageAOutcome)
    (llmB : OracleCall LLMResponse)
    (parsed_message contact_number timestamp : String) : BackendData :=
  let classificacao := classificar_emergencia stageA llmB parsed_message timestamp
  { success := true
    emergency_type := classificacao.emergency_classification
    urgency_level := classificacao.nivel_urgencia
    situation := parsed_message
    confidence_score := 9/10
    location := "Não informado"
    victim := none
    reporter := contact_number
    timestamp := timestamp }

/- ===== KnowledgeRetriever (src/agentes/rag_service.py, RAGService) ===== -/

/-- A retrieved context entry as built by `search_relevant_context`
(rag_service.py lines 144-153); document content is modelled as `List Char`. -/
structure Ctx where
  content : List Char
  similarity_score : ℚ

/-- Distance-to-similarity normalization `max(0, 1 - score / 2)`
(rag_service.py line 152). -/
def similarity (score : ℚ) : ℚ :=
  max 0 (1 - score / 2)

/-- Outcome of the FAISS `similarity_search_with_score` oracle: the call
raises (connectivity failure), or returns ranked `(content, distance)`
pairs. -/
inductive SearchOutcome where
  | raises (msg : String)
  | returns (results : List (List Char × ℚ))

/-- Embedding of `RAGService.search_relevant_context` (rag_service.py lines
115-160): an uninitialized store or a raising search yields `[]`; otherwise
candidates whose distance exceeds `score_threshold` are dropped and the rest
are mapped to `(content, similarity)` in the order the search returned them. -/
def search_relevant_context (storeInit : Bool) (search : SearchOutcome)
    (score_threshold : ℚ) : List Ctx :=
  if storeInit = false then []
  else
    match search with
    | .raises _ => []
    | .returns results =>
      (results.filter (fun p => p.2 ≤ score_threshold)).map
        (fun p => { content := p.1, similarity_score := similarity p.2 })

/-- The fixed header line of a non-empty context blob (rag_service.py
line 181). -/
def contextHeader : List Char :=
  "CONTEXTO RELEVANTE DA BASE DE CONHECIMENTO:\n\n".toList

/-- The fixed placeholder returned when no context survives (rag_service.py
line 178). -/
def noContextPlaceholder : List Char :=
  "Nenhum contexto específico encontrado na base de conhecimento.".toList

/-- The string returned by the `except` branch of `get_enhanced_context`
(rag_service.py line 197); unreachable in this model because every failure of
the inner search is already caught inside `search_relevant_context`. -/
def errorPlaceholder : List Char :=
  "Erro ao acessar base de conhecimento.".toList

/-- One formatted piece `f"{i}. {content}\n"` (rag_service.py line 185). -/
def contextPiece (i : Nat) (content : List Char) : List Char :=
  (toString i).toList ++ (". ".toList ++ (content ++ "\n".toList))

/-- The accumulation loop of `get_enhanced_context` (rag_service.py lines
184-191): pieces are appended in order, and the loop breaks before the first
piece that would push `current_length` past `max_context_length`. -/
def buildPieces (max_context_length : Nat) : Nat → Nat → List (List Char) → List Char
  | _, _, [] => []
  | i, current_length, c :: rest =>
    if max_context_length < current_length + (contextPiece i c).length then []
    else contextPiece i c ++
      buildPieces max_context_length (i + 1) (current_length + (contextPiece i c).length) rest

/-- Python `str.strip()`: drop leading and trailing whitespace. -/
def pyStrip (s : List Char) : List Char :=
  ((s.dropWhile Char.isWhitespace).reverse.dropWhile Char.isWhitespace).reverse

/-- Embedding of `RAGService.get_enhanced_context` (rag_service.py lines
162-197): search with `top_k = 10` and the default distance threshold `1.5`,
return the fixed placeholder when nothing survives, otherwise concatenate the
header and the budgeted pieces and strip the result. -/
def get_enhanced_context (storeInit : Bool) (search : SearchOutcome)
    (max_context_length : Nat) : List Char :=
  if (search_relevant_context storeInit search (3/2)).isEmpty then noContextPlaceholder
  else
    pyStrip (contextHeader ++
      buildPieces max_context_length 1 contextHeader.length
        ((search_relevant_context storeInit search (3/2)).map Ctx.content))

/- ===== Helper lemmas ===== -/

/-- Testing a prefix against `l.take n` is the same as testing it against `l`
whenever the candidate prefix is no longer than `n`. -/
theorem isPrefixOf_take (p : List Nat) : ∀ (l : List Nat) (n : Nat), p.length ≤ n →
    p.isPrefixOf (l.take n) = p.isPrefixOf l := by
  induction p with
  | nil => intro l n _; simp
  | cons a p ih =>
    intro l n h
    cases l with
    | nil => rw [List.take_nil]
    | cons b l' =>
      cases n with
      | zero => simp at h
      | succ n' =>
        rw [List.take_succ_cons]
        show (a == b && p.isPrefixOf (l'.take n')) = (a == b && p.isPrefixOf l')
        rw [ih l' n' (Nat.le_of_succ_le_succ h)]

/-- The source's sniffing chain agrees with the specification's sniffing rule
on every buffer. -/
theorem chooseExtension_eq_specFormatHint (buf : List Nat) :
    chooseExtension buf = specFormatHint buf := by
  simp only [chooseExtension, specFormatHint]
  rw [isPrefixOf_take bytesID3 buf 20 (by decide),
    isPrefixOf_take [255, 251] buf 20 (by decide),
    isPrefixOf_take [255, 243] buf 20 (by decide),
    isPrefixOf_take bytesRIFF buf 20 (by decide),
    isPrefixOf_take bytesFtyp buf 20 (by decide)]
  cases h2 : bytesID3.isPrefixOf buf <;>
    cases h3 : List.isPrefixOf [255, 251] buf <;>
      cases h4 : List.isPrefixOf [255, 243] buf <;>
        simp [h2, h3, h4]

/- ===== Claim theorems: C4, C5, C8 ===== -/

/-- C4 counterexample: contrary to the claim, unpadding does not fail with
`InvalidPadding` when the pad byte is `0` (the whole buffer is dropped and the
empty buffer is returned) nor when it exceeds the block size 16 (here a pad of
20 on a 32-byte buffer is accepted and 20 bytes are dropped). -/
theorem unpad_claim_counterexample :
    (List.replicate 15 65 ++ [0]).getLast! = 0 ∧
    unpad (List.replicate 15 65 ++ [0]) = some [] ∧
    (List.replicate 31 65 ++ [20]).getLast! = 20 ∧
    unpad (List.replicate 31 65 ++ [20]) = some (List.replicate 12 65) := by
  decide

/-- C4 (amended): unpadding reads the last byte as the pad length `p` and
fails exactly when the buffer is empty or `p` exceeds the buffer length; there
is no `p = 0` check and no block-size bound, so `p = 0` yields the empty
buffer and any `1 ≤ p ≤ length` (including `p > 16`) drops exactly the last
`p` bytes. -/
theorem unpad_characterization (buf : List Nat) :
    (unpad buf = none ↔ buf = [] ∨ buf.length < buf.getLast!) ∧
    (buf ≠ [] → buf.getLast! = 0 → unpad buf = some []) ∧
    (buf ≠ [] → 1 ≤ buf.getLast! → buf.getLast! ≤ buf.length →
      unpad buf = some (buf.take (buf.length - buf.getLast!))) := by
  refine ⟨?_, ?_, ?_⟩
  · unfold unpad
    rcases Nat.eq_zero_or_pos buf.length with h0 | h0
    · simp [h0, List.length_eq_zero.mp h0]
    · rw [if_neg (by omega)]
      by_cases h1 : buf.getLast! > buf.length
      · rw [if_pos h1]
        exact iff_of_true rfl (Or.inr h1)
      · rw [if_neg h1]
        have hr : ¬(buf = [] ∨ buf.length < buf.getLast!) := by
          push_neg
          refine ⟨?_, by omega⟩
          intro hb
          rw [hb] at h0
          simp at h0
        refine iff_of_false ?_ hr
        split <;> simp
  · intro hne h0
    unfold unpad
    rw [if_neg (fun h => hne (List.length_eq_zero.mp h))]
    simp [h0]
  · intro hne hge hle
    unfold unpad
    rw [if_neg (fun h => hne (List.length_eq_zero.mp h)),
      if_neg (by omega), if_neg (by omega)]

/-- Witness for `unpad_characterization` at the buffer `[65, 2, 2]`. -/
theorem unpad_characterization_witness : unpad [65, 2, 2] = some [65] :=
  (unpad_characterization [65, 2, 2]).2.2 (by decide) (by decide) (by decide)

/-- C5: a payload of at most 10 bytes (with a decodable media key) is rejected
by the MAC-strip length check, and the block cipher is never invoked on it. -/
theorem decrypt_enc_small_payload (mk : List Nat) (hkdf : List Nat → List Nat)
    (aesDecrypt : List Nat → List Nat → List Nat → List Nat)
    (enc_bytes : List Nat) (h : enc_bytes.length ≤ 10) :
    decrypt_enc (some mk) hkdf aesDecrypt enc_bytes = (.errPayloadTooSmall, false) := by
  simp only [decrypt_enc]
  rw [if_pos h]

/-- Witness for `decrypt_enc_small_payload` on a 3-byte payload. -/
theorem decrypt_enc_small_payload_witness :
    decrypt_enc (some [1, 2, 3]) (fun _ => List.replicate 112 7) (fun _ _ p => p) [9, 9, 9] =
      (.errPayloadTooSmall, false) :=
  decrypt_enc_small_payload [1, 2, 3] (fun _ => List.replicate 112 7) (fun _ _ p => p)
    [9, 9, 9] (by decide)

/-- C8: every decrypted buffer that passes the minimum-size sanity check is
handed to transcription (never rejected for its header) with the format hint
the specification's sniffing rule assigns: OggS to ogg, ID3 or an MP3
frame-sync pair to mp3, RIFF to wav, ftyp to m4a, and ogg by default. -/
theorem transcribeRouting_matches_specFormatHint (buf : List Nat)
    (h : 100 ≤ buf.length) :
    transcribeRouting buf = .send (specFormatHint buf) := by
  unfold transcribeRouting
  rw [if_neg (by omega), chooseExtension_eq_specFormatHint]

/-- Witness for `transcribeRouting_matches_specFormatHint`: a 100-byte RIFF
buffer is routed to transcription with hint wav. -/
theorem transcribeRouting_matches_specFormatHint_witness :
    transcribeRouting (bytesRIFF ++ List.replicate 96 0) = .send "wav" :=
  transcribeRouting_matches_specFormatHint (bytesRIFF ++ List.replicate 96 0) (by decide)

/- ===== Helper lemmas for the classification cascade ===== -/

/-- `int()` applied to a JSON integer returns that integer unchanged. -/
theorem ratTrunc_intCast (k : Int) : ratTruncToward0 (k : ℚ) = k := by
  unfold ratTruncToward0
  by_cases h : (k : ℚ) < 0
  · rw [if_pos h, ← Int.cast_neg, Int.floor_intCast, neg_neg]
  · rw [if_neg h, Int.floor_intCast]

/-- The parser's canal wrapping yields an empty list exactly for the empty
JSON array. -/
theorem pyWrapList_eq_nil (v : JsonValue) : pyWrapList v = [] ↔ v = .arr [] := by
  cases v <;> simp [pyWrapList]

/-- Whenever the Stage B oracle interaction fails, the classifier returns the
fixed fallback record (for some interpolated error message). -/
theorem classifyFails_fallback (llm : OracleCall LLMResponse)
    (hfail : classifyFails llm = true) :
    ∃ e, UrgencyClassifier.classify_emergency llm = UrgencyClassifier.fallback e := by
  cases llm with
  | raises e => exact ⟨e, rfl⟩
  | returns r =>
    cases hp : EmergencyOutputParser.parse r with
    | ok c => simp [classifyFails, hp] at hfail
    | error e => exact ⟨e, by simp [UrgencyClassifier.classify_emergency, hp]⟩

/- ===== Claim theorems: C1, C2, C3, C9, C10 ===== -/

/-- C1 counterexample: with Stage A parsing to `["samu"]` and Stage B parsing
to channels `["bombeiros"]`, the `emergency_classification` field returned by
`classificar_emergencia` is Stage A's `["samu"]`, not Stage B's channel
list. -/
theorem fusion_claim_counterexample :
    (classificar_emergencia (.parsed [.samu] "ja" 1)
        (.returns (.valid [("canal", .arr [.str "bombeiros"]), ("nivel_urgencia", .num 5),
          ("justificativa", .str "jb")])) "relato" "t").emergency_classification = ["samu"] ∧
    (UrgencyClassifier.classify_emergency (.returns (.valid
        [("canal", .arr [.str "bombeiros"]), ("nivel_urgencia", .num 5),
          ("justificativa", .str "jb")]))).canal = [.str "bombeiros"] ∧
    (["samu"] : List String) ≠ ["bombeiros"] :=
  ⟨rfl, rfl, by simp⟩

/-- C1 (amended): the service-type set exposed to external routing by
`classificar_emergencia` is Stage A's `tipos_emergencia` (Stage B's `canal`
list contributes only the urgency level), and the record's status is the
constant "sucesso". -/
theorem fusion_exposes_stage_a (stageA : StageAOutcome) (llmB : OracleCall LLMResponse)
    (relato timestamp : String) :
    (classificar_emergencia stageA llmB relato timestamp).emergency_classification =
      (EmergencyClassifierAgent.classify_emergency stageA).tipos_emergencia ∧
    (classificar_emergencia stageA llmB relato timestamp).nivel_urgencia =
      (UrgencyClassifier.classify_emergency llmB).nivel_urgencia :=
  ⟨rfl, rfl⟩

/-- C2 counterexample: on oracle failure Stage B's fallback carries confidence
0.1, not 0.0 as claimed. -/
theorem urgency_fallback_confidence_counterexample :
    (UrgencyClassifier.classify_emergency (.raises "falha")).confidence_score = 1/10 ∧
    (1/10 : ℚ) ≠ 0 :=
  ⟨rfl, by norm_num⟩

/-- C2 (amended): on any failure of the oracle call or its parsing, Stage A
returns the fixed fallback with `tipos_emergencia = ["samu"]` and confidence
0.0, Stage B returns the fixed fallback with `canal = ["saude"]`,
`nivel_urgencia = 4` and confidence 0.1, and both fallback sets are
non-empty (neither stage raises: both embeddings are total and every failure
path lands on these records). -/
theorem cascade_fallback_values (eA : String) (llm : OracleCall LLMResponse)
    (hfail : classifyFails llm = true) :
    (EmergencyClassifierAgent.classify_emergency (.failure eA)).tipos_emergencia = ["samu"] ∧
    (EmergencyClassifierAgent.classify_emergency (.failure eA)).confianca = 0 ∧
    (UrgencyClassifier.classify_emergency llm).canal = [.str "saude"] ∧
    (UrgencyClassifier.classify_emergency llm).nivel_urgencia = 4 ∧
    (UrgencyClassifier.classify_emergency llm).confidence_score = 1/10 ∧
    (EmergencyClassifierAgent.classify_emergency (.failure eA)).tipos_emergencia ≠ [] ∧
    (UrgencyClassifier.classify_emergency llm).canal ≠ [] := by
  obtain ⟨e, he⟩ := classifyFails_fallback llm hfail
  refine ⟨rfl, rfl, ?_, ?_, ?_,
    by simp [EmergencyClassifierAgent.classify_emergency], ?_⟩
  · rw [he]; rfl
  · rw [he]; rfl
  · rw [he]; rfl
  · rw [he]; simp [UrgencyClassifier.fallback]

/-- Witness for `cascade_fallback_values` at concrete failing oracles. -/
theorem cascade_fallback_values_witness :
    (EmergencyClassifierAgent.classify_emergency (.failure "timeout")).confianca = 0 ∧
    (UrgencyClassifier.classify_emergency (.raises "rede")).nivel_urgencia = 4 :=
  ⟨(cascade_fallback_values "timeout" (.raises "rede") rfl).2.1,
   (cascade_fallback_values "timeout" (.raises "rede") rfl).2.2.2.1⟩

/-- C3 counterexample: a successfully parsed oracle response with an empty
list yields an empty classification set in both stages — Stage A when the
validated `tipos_emergencia` list is `[]`, Stage B when the `canal` field is
the empty JSON array — contradicting the claimed hard invariant. -/
theorem nonempty_invariant_counterexample :
    (EmergencyClassifierAgent.classify_emergency (.parsed [] "j" 1)).tipos_emergencia = [] ∧
    (UrgencyClassifier.classify_emergency (.returns (.valid
        [("canal", .arr []), ("nivel_urgencia", .num 3),
          ("justificativa", .str "x")]))).canal = [] :=
  ⟨rfl, rfl⟩

/-- C3 (amended): the fallback paths of both stages always return non-empty
sets, but a successful parse passes the oracle's lists through unchecked:
Stage A's result is empty exactly when the parsed enum list is empty, and a
parsed Stage B record has an empty `canal` exactly when the response's
`canal` field is the empty JSON array. -/
theorem cascade_nonempty_characterization (eA : String) (llm : OracleCall LLMResponse)
    (tipos : List EmergencyType) (j : String) (c : ℚ)
    (flds : List (String × JsonValue)) (cl : EmergencyClassification) :
    (EmergencyClassifierAgent.classify_emergency (.failure eA)).tipos_emergencia ≠ [] ∧
    (classifyFails llm = true → (UrgencyClassifier.classify_emergency llm).canal ≠ []) ∧
    ((EmergencyClassifierAgent.classify_emergency (.parsed tipos j c)).tipos_emergencia = []
      ↔ tipos = []) ∧
    (EmergencyOutputParser.parse (.valid flds) = .ok cl →
      (cl.canal = [] ↔ pyDictGet flds "canal" = some (.arr []))) := by
  refine ⟨by simp [EmergencyClassifierAgent.classify_emergency], ?_, ?_, ?_⟩
  · intro hfail
    obtain ⟨e, he⟩ := classifyFails_fallback llm hfail
    rw [he]
    simp [UrgencyClassifier.fallback]
  · simp [EmergencyClassifierAgent.classify_emergency]
  · intro hok
    cases hc : pyDictGet flds "canal" with
    | none => simp [EmergencyOutputParser.parse, hc] at hok
    | some c0 =>
      cases hn : pyDictGet flds "nivel_urgencia" with
      | none => simp [EmergencyOutputParser.parse, hc, hn] at hok
      | some n0 =>
        cases hj : pyDictGet flds "justificativa" with
        | none => simp [EmergencyOutputParser.parse, hc, hn, hj] at hok
        | some j0 =>
          cases hi : pyInt n0 with
          | none => simp [EmergencyOutputParser.parse, hc, hn, hj, hi] at hok
          | some k0 =>
            cases hf : pyFloat ((pyDictGet flds "confidence_score").getD (.num (4/5))) with
            | none => simp [EmergencyOutputParser.parse, hc, hn, hj, hi, hf] at hok
            | some q0 =>
              simp only [EmergencyOutputParser.parse, hc, hn, hj, hi, hf,
                Except.ok.injEq] at hok
              subst hok
              simp [hc, pyWrapList_eq_nil]

/-- Witness for `cascade_nonempty_characterization` at a failing oracle and a
parsed non-empty channel list. -/
theorem cascade_nonempty_characterization_witness :
    (UrgencyClassifier.classify_emergency (.raises "y")).canal ≠ [] ∧
    ((⟨[.str "saude"], 3, .str "z", 4/5⟩ : EmergencyClassification).canal = [] ↔
      pyDictGet [("canal", .arr [.str "saude"]), ("nivel_urgencia", .num 3),
        ("justificativa", .str "z")] "canal" = some (.arr [])) :=
  ⟨(cascade_nonempty_characterization "x" (.raises "y") [.samu] "z" 1
      [("canal", .arr [.str "saude"]), ("nivel_urgencia", .num 3),
        ("justificativa", .str "z")]
      ⟨[.str "saude"], 3, .str "z", 4/5⟩).2.1 rfl,
   (cascade_nonempty_characterization "x" (.raises "y") [.samu] "z" 1
      [("canal", .arr [.str "saude"]), ("nivel_urgencia", .num 3),
        ("justificativa", .str "z")]
      ⟨[.str "saude"], 3, .str "z", 4/5⟩).2.2.2 rfl⟩

/-- C9: the record handed to persistence always carries the constant
confidence 0.9 and the pipeline record always carries status "sucesso",
whatever the two stages' oracles did (their own confidence values, the 0.0
fallback included, are never read by the fusion layer). -/
theorem backendData_constant_confidence (stageA : StageAOutcome)
    (llmB : OracleCall LLMResponse) (msg num ts : String) :
    (process_message_event_backendData stageA llmB msg num ts).confidence_score = 9/10 ∧
    (classificar_emergencia stageA llmB msg ts).status = "sucesso" ∧
    (process_message_event_backendData stageA llmB msg num ts).success = true :=
  ⟨rfl, rfl, rfl⟩

/-- C10: the Stage B parser is lenient beyond the three required fields — a
response object carrying only `canal`, an integral `nivel_urgencia` and
`justificativa` parses successfully with `confidence_score` defaulted to 0.8,
`nivel_urgencia` accepted as any integer (no 1-5 range check), and a
non-list `canal` value wrapped into a one-element list. -/
theorem parse_lenient (v j : JsonValue) (k : Int) :
    EmergencyOutputParser.parse (.valid
        [("canal", v), ("nivel_urgencia", .num (k : ℚ)), ("justificativa", j)]) =
      .ok ⟨pyWrapList v, k, j, 4/5⟩ ∧
    (v.isArr = false → pyWrapList v = [v]) := by
  constructor
  · have h1 : EmergencyOutputParser.parse (.valid
        [("canal", v), ("nivel_urgencia", .num (k : ℚ)), ("justificativa", j)]) =
        .ok ⟨pyWrapList v, ratTruncToward0 (k : ℚ), j, 4/5⟩ := rfl
    rw [h1, ratTrunc_intCast]
  · intro hv
    cases v <;> simp_all [pyWrapList, JsonValue.isArr]

/-- Witness for `parse_lenient` with a scalar canal and the out-of-range
urgency 99. -/
theorem parse_lenient_witness :
    EmergencyOutputParser.parse (.valid [("canal", .str "policia"),
        ("nivel_urgencia", .num ((99 : Int) : ℚ)), ("justificativa", .str "x")]) =
      .ok ⟨[.str "policia"], 99, .str "x", 4/5⟩ ∧
    pyWrapList (.str "policia") = [.str "policia"] :=
  ⟨(parse_lenient (.str "policia") (.str "x") 99).1,
   (parse_lenient (.str "policia") (.str "x") 99).2 rfl⟩

/- ===== Helper lemmas for the knowledge retriever ===== -/

/-- The distance-to-similarity normalization is antitone: smaller distances
give larger similarities. -/
theorem similarity_antitone {d e : ℚ} (h : d ≤ e) : similarity e ≤ similarity d := by
  unfold similarity
  apply max_le_max le_rfl
  linarith

/-- The accumulation loop never pushes the running length past the budget:
starting at or below the budget, the appended pieces keep the total at or
below it. -/
theorem buildPieces_length_le (m : Nat) :
    ∀ (cs : List (List Char)) (i cur : Nat), cur ≤ m →
      cur + (buildPieces m i cur cs).length ≤ m := by
  intro cs
  induction cs with
  | nil => intro i cur hc; simpa [buildPieces] using hc
  | cons c rest ih =>
    intro i cur hc
    unfold buildPieces
    split
    · simpa using hc
    · rename_i hle
      rw [List.length_append]
      have h2 := ih (i + 1) (cur + (contextPiece i c).length) (by omega)
      omega

/-- Stripping never lengthens a string. -/
theorem pyStrip_length_le (s : List Char) : (pyStrip s).length ≤ s.length := by
  have h1 := (List.dropWhile_sublist (l := (s.dropWhile Char.isWhitespace).reverse)
    Char.isWhitespace).length_le
  have h2 := (List.dropWhile_sublist (l := s) Char.isWhitespace).length_le
  simp only [pyStrip, List.length_reverse]
  simp only [List.length_reverse] at h1
  omega

/- ===== Claim theorems: C6, C7 ===== -/

/-- C6: `get_enhanced_context` is total (the embedding returns a string on
every input, mirroring the source's catch-all handlers), and an uninitialized
store, a raising similarity search, and a search over an empty store all
degrade to the fixed non-empty "no context found" placeholder. -/
theorem get_enhanced_context_degraded (search : SearchOutcome) (m : Nat) (e : String) :
    get_enhanced_context false search m = noContextPlaceholder ∧
    get_enhanced_context true (.raises e) m = noContextPlaceholder ∧
    get_enhanced_context true (.returns []) m = noContextPlaceholder ∧
    noContextPlaceholder ≠ [] :=
  ⟨rfl, rfl, rfl, by decide⟩

/-- C7 counterexample: with one surviving candidate and a budget of 30
characters, the returned blob is the 43-character stripped header, exceeding
`max_chars` — the header and the placeholder are emitted regardless of the
budget. -/
theorem context_budget_counterexample :
    (get_enhanced_context true (.returns [(['A'], 0)]) 30).length = 43 ∧
    ¬(43 ≤ 30) := by
  have hq : ((0 : ℚ)) ≤ 3/2 := by norm_num
  have hsr : search_relevant_context true (.returns [(['A'], 0)]) (3/2) =
      [{ content := ['A'], similarity_score := similarity 0 }] := by
    simp [search_relevant_context, hq]
  constructor
  · unfold get_enhanced_context
    rw [hsr]
    decide
  · decide

/-- C7 (amended): once `max_chars` is at least 62 (the placeholder's length,
which also covers the 45-character header), the returned blob never exceeds
`max_chars`; and whenever the search oracle returns its candidates ranked by
non-decreasing distance, the surviving candidates that the blob concatenates
carry non-increasing similarity scores. -/
theorem get_enhanced_context_budget_and_order (storeInit : Bool)
    (search : SearchOutcome) (m : Nat) (hm : 62 ≤ m) :
    (get_enhanced_context storeInit search m).length ≤ m ∧
    (∀ results, search = .returns results →
      results.Pairwise (fun p q => p.2 ≤ q.2) →
      ((search_relevant_context storeInit search (3/2)).map
        Ctx.similarity_score).Pairwise (fun a b => b ≤ a)) := by
  constructor
  · unfold get_enhanced_context
    split
    · have hp : noContextPlaceholder.length = 62 := by decide
      omega
    · have hh : contextHeader.length = 45 := by decide
      have hb := buildPieces_length_le m
        ((search_relevant_context storeInit search (3/2)).map Ctx.content)
        1 contextHeader.length (by omega)
      have hs := pyStrip_length_le (contextHeader ++
        buildPieces m 1 contextHeader.length
          ((search_relevant_context storeInit search (3/2)).map Ctx.content))
      rw [List.length_append] at hs
      omega
  · intro results hres hsorted
    subst hres
    cases storeInit with
    | false => exact List.Pairwise.nil
    | true =>
      have hrw : search_relevant_context true (.returns results) (3/2) =
          (results.filter (fun p => p.2 ≤ (3/2 : ℚ))).map
            (fun p => { content := p.1, similarity_score := similarity p.2 }) := rfl
      rw [hrw, List.map_map, List.pairwise_map]
      exact (List.Pairwise.sublist (List.filter_sublist results) hsorted).imp
        (fun h => similarity_antitone h)

/-- Witness for `get_enhanced_context_budget_and_order` on two ranked
candidates and a 100-character budget. -/
theorem get_enhanced_context_budget_and_order_witness :
    (get_enhanced_context true (.returns [(['A'], 0), (['B'], 1)]) 100).length ≤ 100 ∧
    ((search_relevant_context true (.returns [(['A'], 0), (['B'], 1)]) (3/2)).map
      Ctx.similarity_score).Pairwise (fun a b => b ≤ a) :=
  ⟨(get_enhanced_context_budget_and_order true (.returns [(['A'], 0), (['B'], 1)]) 100
      (by decide)).1,
   (get_enhanced_context_budget_and_order true (.returns [(['A'], 0), (['B'], 1)]) 100
      (by decide)).2 [(['A'], 0), (['B'], 1)] rfl (by decide)⟩
